import Mathlib

/-!
Shallow embedding of the AFJP crypto fund Move contracts.

The embedding covers the four on-chain modules of the repository:
afjp_token (primary AFJP token: mint, burn, transfer), afjp_staking
(staking pool with a reward-per-token accumulator), juventud_token
(burn-to-mint exchange and rental discounts), and afjp_vesting
(vesting, stubbed in the source).

Modelling conventions:
- Move addresses are natural numbers; the module account @afjp_crypto,
  returned by every get_admin_address helper, is the constant afjpAddr.
- The Move global storage is modelled per resource kind as a map from
  address to an Option of the resource record; the existence flags
  (capsAt, eventsAt) model exists of resources whose payload the
  embedding does not need (capabilities, event handles).
- Move u64 values are modelled as Nat.  Move arithmetic aborts on
  overflow and underflow; none of the verified claims depends on a
  wrap-around boundary, and every subtraction in the modelled code is
  guarded by an explicit balance or time comparison in the source.
- Each entry function becomes a function of type
  State -> args -> Except Nat State, where the Nat error is the Move
  abort code; returning an error leaves the caller with the old state,
  matching the all-or-nothing semantics of a Move transaction abort.
- borrow_global on a missing resource aborts in the Move VM with a
  runtime code distinct from every user abort code; the embedding uses
  the constant E_MISSING_RESOURCE for that case.
- timestamp::now_seconds is passed in as an explicit now argument
  (one clock value per transaction).
-/

abbrev Addr := Nat

/-- The module account @afjp_crypto; every get_admin_address in the four
modules returns this constant address. -/
def afjpAddr : Addr := 0

/-- Abort code of a borrow_global on a resource that does not exist
(a Move VM level failure, distinct from every user abort code of the
four modules). -/
def E_MISSING_RESOURCE : Nat := 4008

namespace AfjpToken

def E_NOT_ADMIN : Nat := 1
def E_ALREADY_INITIALIZED : Nat := 2
def E_NOT_INITIALIZED : Nat := 3
def E_INSUFFICIENT_BALANCE : Nat := 4
def E_INVALID_AMOUNT : Nat := 5

/-- TokenInfo resource of afjp_token.move. -/
structure TokenInfo where
  total_supply : Nat
  burned_amount : Nat
  admin : Addr
deriving Repr, DecidableEq

structure MintEvent where
  amount : Nat
  recipient : Addr
  timestamp : Nat
deriving Repr, DecidableEq

structure BurnEvent where
  amount : Nat
  burner : Addr
  timestamp : Nat
deriving Repr, DecidableEq

structure TransferEvent where
  amount : Nat
  from_addr : Addr
  to_addr : Addr
  timestamp : Nat
deriving Repr, DecidableEq

/-- Global state touched by afjp_token.move: per-address resources and
the coin balances of the AFJPToken coin type.  The three event handles
live inside the TokenEvents resource; the lists hold the emitted events
and eventsAt a models exists of TokenEvents at address a. -/
structure AfjpState where
  capsAt : Addr → Bool
  infoAt : Addr → Option TokenInfo
  eventsAt : Addr → Bool
  balances : Addr → Nat
  mint_events : List MintEvent
  burn_events : List BurnEvent
  transfer_events : List TransferEvent

/-- coin::balance of the AFJP token, as used by get_balance. -/
def get_balance (s : AfjpState) (a : Addr) : Nat := s.balances a

/-- Entry function mint of afjp_token.move.  The source resolves
admin_addr as the address of the calling signer and checks all
resources there, in source order: TokenCapabilities existence, the
amount, the three borrows, then the stored-admin equality. -/
def mint (s : AfjpState) (caller recipient : Addr) (amount now : Nat) :
    Except Nat AfjpState :=
  if ¬ s.capsAt caller then .error E_NOT_INITIALIZED
  else if ¬ amount > 0 then .error E_INVALID_AMOUNT
  else
    match s.infoAt caller with
    | none => .error E_MISSING_RESOURCE
    | some token_info =>
      if ¬ s.eventsAt caller then .error E_MISSING_RESOURCE
      else if ¬ token_info.admin = caller then .error E_NOT_ADMIN
      else
        .ok { s with
          balances := Function.update s.balances recipient
            (s.balances recipient + amount),
          infoAt := Function.update s.infoAt caller
            (some { token_info with
              total_supply := token_info.total_supply + amount }),
          mint_events := s.mint_events ++
            [{ amount := amount, recipient := recipient, timestamp := now }] }

/-- Entry function burn of afjp_token.move: resources are resolved at
the fixed admin address, the caller only needs a sufficient balance. -/
def burn (s : AfjpState) (caller : Addr) (amount now : Nat) :
    Except Nat AfjpState :=
  let admin_addr := afjpAddr
  if ¬ s.capsAt admin_addr then .error E_NOT_INITIALIZED
  else if ¬ amount > 0 then .error E_INVALID_AMOUNT
  else
    match s.infoAt admin_addr with
    | none => .error E_MISSING_RESOURCE
    | some token_info =>
      if ¬ s.eventsAt admin_addr then .error E_MISSING_RESOURCE
      else if s.balances caller < amount then .error E_INSUFFICIENT_BALANCE
      else
        .ok { s with
          balances := Function.update s.balances caller
            (s.balances caller - amount),
          infoAt := Function.update s.infoAt admin_addr
            (some { token_info with
              burned_amount := token_info.burned_amount + amount }),
          burn_events := s.burn_events ++
            [{ amount := amount, burner := caller, timestamp := now }] }

/-- Entry function transfer of afjp_token.move.  The source performs no
initialization check at all: it validates the amount and the balance,
moves the coins, and emits an event only when the TokenEvents resource
exists at the admin address. -/
def transfer (s : AfjpState) (caller recv : Addr) (amount now : Nat) :
    Except Nat AfjpState :=
  if ¬ amount > 0 then .error E_INVALID_AMOUNT
  else if s.balances caller < amount then .error E_INSUFFICIENT_BALANCE
  else
    let b1 := Function.update s.balances caller (s.balances caller - amount)
    let b2 := Function.update b1 recv (b1 recv + amount)
    let s1 := { s with balances := b2 }
    if s.eventsAt afjpAddr then
      .ok { s1 with transfer_events := s1.transfer_events ++
        [{ amount := amount, from_addr := caller, to_addr := recv,
           timestamp := now }] }
    else .ok s1

end AfjpToken

namespace AfjpStaking

def E_NOT_INITIALIZED : Nat := 1
def E_ALREADY_INITIALIZED : Nat := 2
def E_INVALID_AMOUNT : Nat := 3
def E_INSUFFICIENT_BALANCE : Nat := 4
def E_INSUFFICIENT_STAKED : Nat := 5
def E_NO_REWARDS : Nat := 6
def E_NOT_ADMIN : Nat := 7
def E_POOL_NOT_ACTIVE : Nat := 8

def SECONDS_PER_YEAR : Nat := 31536000
def BASE_APY : Nat := 1200
def MAX_APY : Nat := 2500
def MIN_STAKE_AMOUNT : Nat := 100
def REWARD_PRECISION : Nat := 1000000

/-- StakingPool resource of afjp_staking.move. -/
structure StakingPool where
  total_staked : Nat
  total_rewards_distributed : Nat
  reward_rate_per_second : Nat
  last_update_time : Nat
  accumulated_reward_per_token : Nat
  admin : Addr
  is_active : Bool
  total_stakers : Nat
deriving Repr, DecidableEq

/-- StakerInfo resource, stored under the staker address. -/
structure StakerInfo where
  staked_amount : Nat
  reward_debt : Nat
  last_stake_time : Nat
  total_rewards_claimed : Nat
  user_reward_per_token_paid : Nat
deriving Repr, DecidableEq

structure StakeEvent where
  user : Addr
  amount : Nat
  timestamp : Nat
deriving Repr, DecidableEq

structure UnstakeEvent where
  user : Addr
  amount : Nat
  timestamp : Nat
deriving Repr, DecidableEq

structure ClaimEvent where
  user : Addr
  reward_amount : Nat
  timestamp : Nat
deriving Repr, DecidableEq

/-- Global state touched by afjp_staking.move.  The staking module also
reads and moves AFJP coin balances (afjp_token::get_balance and a raw
coin::transfer), so the AFJP token state is a component. -/
structure StakingState where
  poolAt : Addr → Option StakingPool
  stakerAt : Addr → Option StakerInfo
  eventsAt : Addr → Bool
  afjp : AfjpToken.AfjpState
  stake_events : List StakeEvent
  unstake_events : List UnstakeEvent
  claim_events : List ClaimEvent

/-- Internal function update_pool_rewards of afjp_staking.move.  It is a
no-op when no pool exists; otherwise it adds
time_elapsed * reward_rate_per_second to the accumulator (the source
performs no division by total_staked) and advances last_update_time. -/
def update_pool_rewards (s : StakingState) (now : Nat) : StakingState :=
  match s.poolAt afjpAddr with
  | none => s
  | some pool =>
    let pool1 :=
      if pool.total_staked > 0 ∧ now > pool.last_update_time then
        let time_elapsed := now - pool.last_update_time
        let reward_per_token := time_elapsed * pool.reward_rate_per_second
        { pool with accumulated_reward_per_token :=
            pool.accumulated_reward_per_token + reward_per_token }
      else pool
    let pool2 := { pool1 with last_update_time := now }
    { s with poolAt := Function.update s.poolAt afjpAddr (some pool2) }

/-- Public view calculate_rewards of afjp_staking.move: projects the
pending accumulator increment in memory without mutating state, then
returns staked_amount * (acc - paid) / REWARD_PRECISION.  In the source
the subtraction is a u64 subtraction that would abort if paid exceeded
acc; paid is only ever assigned earlier accumulator values so the Nat
truncating subtraction agrees on every reachable state. -/
def calculate_rewards (s : StakingState) (user : Addr) (now : Nat) : Nat :=
  match s.stakerAt user with
  | none => 0
  | some staker_info =>
    match s.poolAt afjpAddr with
    | none => 0
    | some pool =>
      let accumulated :=
        if pool.total_staked > 0 ∧ now > pool.last_update_time then
          pool.accumulated_reward_per_token +
            (now - pool.last_update_time) * pool.reward_rate_per_second
        else pool.accumulated_reward_per_token
      let reward_per_token_diff :=
        accumulated - staker_info.user_reward_per_token_paid
      staker_info.staked_amount * reward_per_token_diff / REWARD_PRECISION

/-- Entry function stake_tokens of afjp_staking.move.  Note two source
facts the theorems below depend on: the transferred coins go to the
admin address via a raw coin::transfer (no module event), and on an
existing StakerInfo the source comment says it skips claiming rewards
and simply overwrites user_reward_per_token_paid with the current
accumulator. -/
def stake_tokens (s : StakingState) (user : Addr) (amount now : Nat) :
    Except Nat StakingState :=
  if amount < MIN_STAKE_AMOUNT then .error E_INVALID_AMOUNT
  else if AfjpToken.get_balance s.afjp user < amount then
    .error E_INSUFFICIENT_BALANCE
  else if (s.poolAt afjpAddr).isNone then .error E_NOT_INITIALIZED
  else
    let s1 := update_pool_rewards s now
    match s1.poolAt afjpAddr with
    | none => .error E_MISSING_RESOURCE
    | some pool =>
      if ¬ pool.is_active then .error E_POOL_NOT_ACTIVE
      else
        let bal := s1.afjp.balances
        let b1 := Function.update bal user (bal user - amount)
        let b2 := Function.update b1 afjpAddr (b1 afjpAddr + amount)
        let afjp1 := { s1.afjp with balances := b2 }
        let acc := pool.accumulated_reward_per_token
        let next :=
          match s1.stakerAt user with
          | none =>
            (Function.update s1.stakerAt user (some {
                staked_amount := amount,
                reward_debt := 0,
                last_stake_time := now,
                total_rewards_claimed := 0,
                user_reward_per_token_paid := acc }),
             { pool with total_stakers := pool.total_stakers + 1 })
          | some staker_info =>
            (Function.update s1.stakerAt user (some { staker_info with
                staked_amount := staker_info.staked_amount + amount,
                last_stake_time := now,
                user_reward_per_token_paid := acc }),
             pool)
        let pool2 := { next.2 with total_staked := next.2.total_staked + amount }
        if ¬ s1.eventsAt afjpAddr then .error E_MISSING_RESOURCE
        else
          .ok { s1 with
            afjp := afjp1,
            stakerAt := next.1,
            poolAt := Function.update s1.poolAt afjpAddr (some pool2),
            stake_events := s1.stake_events ++
              [{ user := user, amount := amount, timestamp := now }] }

/-- Entry function unstake_tokens of afjp_staking.move.  The source
reduces the staked bookkeeping and overwrites
user_reward_per_token_paid, but transfers no coins back to the user
(the source comment defers that to a production implementation). -/
def unstake_tokens (s : StakingState) (user : Addr) (amount now : Nat) :
    Except Nat StakingState :=
  if ¬ amount > 0 then .error E_INVALID_AMOUNT
  else
    match s.stakerAt user with
    | none => .error E_INSUFFICIENT_STAKED
    | some staker0 =>
      if staker0.staked_amount < amount then .error E_INSUFFICIENT_STAKED
      else
        let s1 := update_pool_rewards s now
        match s1.poolAt afjpAddr with
        | none => .error E_MISSING_RESOURCE
        | some pool =>
          match s1.stakerAt user with
          | none => .error E_MISSING_RESOURCE
          | some staker_info =>
            let staker1 := { staker_info with
              staked_amount := staker_info.staked_amount - amount,
              user_reward_per_token_paid := pool.accumulated_reward_per_token }
            let pool1 :=
              if staker1.staked_amount = 0 then
                { pool with total_stakers := pool.total_stakers - 1 }
              else pool
            let pool2 := { pool1 with total_staked := pool1.total_staked - amount }
            if ¬ s1.eventsAt afjpAddr then .error E_MISSING_RESOURCE
            else
              .ok { s1 with
                stakerAt := Function.update s1.stakerAt user (some staker1),
                poolAt := Function.update s1.poolAt afjpAddr (some pool2),
                unstake_events := s1.unstake_events ++
                  [{ user := user, amount := amount, timestamp := now }] }

/-- Internal function claim_rewards_internal of afjp_staking.move.  The
returned Nat is the reward_amount recorded in the counters and the
emitted ClaimEvent; the source mints no coins for it (its comment
defers the payout to a production implementation). -/
def claim_rewards_internal (s : StakingState) (user : Addr) (now : Nat) :
    Except Nat (StakingState × Nat) :=
  if (s.stakerAt user).isNone then .error E_NO_REWARDS
  else
    let s1 := update_pool_rewards s now
    let reward_amount := calculate_rewards s1 user now
    if ¬ reward_amount > 0 then .error E_NO_REWARDS
    else
      match s1.poolAt afjpAddr with
      | none => .error E_MISSING_RESOURCE
      | some pool =>
        match s1.stakerAt user with
        | none => .error E_MISSING_RESOURCE
        | some staker_info =>
          let staker1 := { staker_info with
            total_rewards_claimed :=
              staker_info.total_rewards_claimed + reward_amount,
            user_reward_per_token_paid := pool.accumulated_reward_per_token }
          let pool1 := { pool with
            total_rewards_distributed :=
              pool.total_rewards_distributed + reward_amount }
          if ¬ s1.eventsAt afjpAddr then .error E_MISSING_RESOURCE
          else
            .ok ({ s1 with
              stakerAt := Function.update s1.stakerAt user (some staker1),
              poolAt := Function.update s1.poolAt afjpAddr (some pool1),
              claim_events := s1.claim_events ++
                [{ user := user, reward_amount := reward_amount,
                   timestamp := now }] }, reward_amount)

/-- Entry function add_rewards of afjp_staking.move.  The source checks
the pool at the caller address, checks the stored admin, and adjusts
only reward_rate_per_second; it never calls update_pool_rewards and
reads no clock, so accumulator and last_update_time are untouched. -/
def add_rewards (s : StakingState) (caller : Addr) (amount : Nat) :
    Except Nat StakingState :=
  match s.poolAt caller with
  | none => .error E_NOT_INITIALIZED
  | some pool =>
    if ¬ pool.admin = caller then .error E_NOT_ADMIN
    else if pool.total_staked > 0 then
      let additional_rate :=
        amount * REWARD_PRECISION / (pool.total_staked * SECONDS_PER_YEAR)
      let raised := pool.reward_rate_per_second + additional_rate
      let max_rate := MAX_APY * REWARD_PRECISION / (10000 * SECONDS_PER_YEAR)
      let new_rate := if raised > max_rate then max_rate else raised
      let pool1 := { pool with reward_rate_per_second := new_rate }
      .ok { s with poolAt := Function.update s.poolAt caller (some pool1) }
    else .ok s

end AfjpStaking

namespace JuventudToken

def E_NOT_INITIALIZED : Nat := 1
def E_ALREADY_INITIALIZED : Nat := 2
def E_INVALID_AMOUNT : Nat := 3
def E_INSUFFICIENT_AFJP_BALANCE : Nat := 4
def E_INSUFFICIENT_JUVENTUD_BALANCE : Nat := 5
def E_NOT_ADMIN : Nat := 6
def E_DISCOUNT_NOT_AVAILABLE : Nat := 7
def E_INVALID_DISCOUNT_AMOUNT : Nat := 8

def AFJP_TO_JUVENTUD_RATE : Nat := 10
def MIN_BURN_AMOUNT : Nat := 100
def MAX_DISCOUNT_PERCENTAGE : Nat := 50

/-- TokenInfo resource of juventud_token.move. -/
structure JuvTokenInfo where
  total_supply : Nat
  total_burned : Nat
  total_afjp_burned : Nat
  admin : Addr
  exchange_rate : Nat
deriving Repr, DecidableEq

/-- DiscountSystem resource of juventud_token.move. -/
structure DiscountSystem where
  base_discount_rate : Nat
  max_discount_per_transaction : Nat
  total_discounts_applied : Nat
deriving Repr, DecidableEq

/-- UserDiscountInfo resource, stored under the user address.  The
discount_tier byte is modelled as a Nat (0 basic, 1 premium, 2 vip). -/
structure UserDiscountInfo where
  total_discounts_used : Nat
  last_discount_time : Nat
  discount_tier : Nat
deriving Repr, DecidableEq

structure BurnAFJPEvent where
  user : Addr
  afjp_amount : Nat
  juventud_received : Nat
  timestamp : Nat
deriving Repr, DecidableEq

structure DiscountAppliedEvent where
  user : Addr
  original_amount : Nat
  discount_amount : Nat
  final_amount : Nat
  timestamp : Nat
deriving Repr, DecidableEq

/-- Global state touched by juventud_token.move: the Juventud resources
and coin balances. -/
structure JuvState where
  capsAt : Addr → Bool
  infoAt : Addr → Option JuvTokenInfo
  discountAt : Addr → Option DiscountSystem
  userAt : Addr → Option UserDiscountInfo
  eventsAt : Addr → Bool
  balances : Addr → Nat
  burn_afjp_events : List BurnAFJPEvent
  discount_events : List DiscountAppliedEvent

/-- Combined state for the exchange: burn_afjp_for_juventud burns AFJP
through afjp_token::burn and mints Juventud, so it reads and writes both
token states. -/
structure World where
  afjp : AfjpToken.AfjpState
  juv : JuvState

/-- coin::balance of the Juventud token, as used by get_balance. -/
def get_balance (w : World) (a : Addr) : Nat := w.juv.balances a

/-- Entry function burn_afjp_for_juventud of juventud_token.move,
in source order: minimum amount, AFJP balance, Juventud capabilities,
borrows, the juventud_amount computation, the afjp_token::burn call,
the mint and deposit, and the statistics update. -/
def burn_afjp_for_juventud (w : World) (user : Addr) (afjp_amount now : Nat) :
    Except Nat World :=
  if afjp_amount < MIN_BURN_AMOUNT then .error E_INVALID_AMOUNT
  else if AfjpToken.get_balance w.afjp user < afjp_amount then
    .error E_INSUFFICIENT_AFJP_BALANCE
  else if ¬ w.juv.capsAt afjpAddr then .error E_NOT_INITIALIZED
  else
    match w.juv.infoAt afjpAddr with
    | none => .error E_MISSING_RESOURCE
    | some token_info =>
      if ¬ w.juv.eventsAt afjpAddr then .error E_MISSING_RESOURCE
      else
        let juventud_amount := afjp_amount * token_info.exchange_rate
        match AfjpToken.burn w.afjp user afjp_amount now with
        | .error e => .error e
        | .ok afjp1 =>
          let info1 := { token_info with
            total_supply := token_info.total_supply + juventud_amount,
            total_afjp_burned := token_info.total_afjp_burned + afjp_amount }
          .ok { afjp := afjp1,
                juv := { w.juv with
                  balances := Function.update w.juv.balances user
                    (w.juv.balances user + juventud_amount),
                  infoAt := Function.update w.juv.infoAt afjpAddr (some info1),
                  burn_afjp_events := w.juv.burn_afjp_events ++
                    [{ user := user, afjp_amount := afjp_amount,
                       juventud_received := juventud_amount,
                       timestamp := now }] } }

/-- Entry function apply_rental_discount of juventud_token.move.  It
withdraws and burns required_juventud coins from the user via the burn
capability; note that the source never adds the burned amount to
TokenInfo.total_burned (only DiscountSystem.total_discounts_applied and
the per-user counters are updated). -/
def apply_rental_discount (w : World) (user : Addr)
    (rental_amount discount_percentage now : Nat) : Except Nat World :=
  if ¬ rental_amount > 0 then .error E_INVALID_AMOUNT
  else if ¬ (discount_percentage > 0 ∧
      discount_percentage ≤ MAX_DISCOUNT_PERCENTAGE) then
    .error E_INVALID_DISCOUNT_AMOUNT
  else
    match w.juv.discountAt afjpAddr with
    | none => .error E_NOT_INITIALIZED
    | some discount_system =>
      let discount_amount := rental_amount * discount_percentage / 100
      if discount_amount > discount_system.max_discount_per_transaction then
        .error E_INVALID_DISCOUNT_AMOUNT
      else
        let required_juventud := discount_amount
        if w.juv.balances user < required_juventud then
          .error E_INSUFFICIENT_JUVENTUD_BALANCE
        else if ¬ w.juv.capsAt afjpAddr then .error E_MISSING_RESOURCE
        else
          let balances1 := Function.update w.juv.balances user
            (w.juv.balances user - required_juventud)
          let userAt1 :=
            match w.juv.userAt user with
            | none =>
              Function.update w.juv.userAt user (some {
                total_discounts_used := discount_amount,
                last_discount_time := now,
                discount_tier := 0 })
            | some user_info =>
              let used := user_info.total_discounts_used + discount_amount
              let tier :=
                if used ≥ 100000 then 2
                else if used ≥ 50000 then 1
                else user_info.discount_tier
              Function.update w.juv.userAt user (some { user_info with
                total_discounts_used := used,
                last_discount_time := now,
                discount_tier := tier })
          let ds1 := { discount_system with
            total_discounts_applied :=
              discount_system.total_discounts_applied + discount_amount }
          if ¬ w.juv.eventsAt afjpAddr then .error E_MISSING_RESOURCE
          else
            .ok { w with juv := { w.juv with
              balances := balances1,
              userAt := userAt1,
              discountAt := Function.update w.juv.discountAt afjpAddr (some ds1),
              discount_events := w.juv.discount_events ++
                [{ user := user, original_amount := rental_amount,
                   discount_amount := discount_amount,
                   final_amount := rental_amount - discount_amount,
                   timestamp := now }] } }

end JuventudToken

namespace AfjpVesting

def E_NOT_INITIALIZED : Nat := 1
def E_ALREADY_INITIALIZED : Nat := 2
def E_INVALID_AMOUNT : Nat := 6
def E_INSUFFICIENT_BALANCE : Nat := 8

def VESTING_DURATION_SECONDS : Nat := 157680000
def CLIFF_DURATION_SECONDS : Nat := 31536000

/-- VestingPool resource of afjp_vesting.move.  The source stores no
per-beneficiary schedules at all (its comment defers them to a
production implementation); only these aggregate counters exist. -/
structure VestingPool where
  total_vested : Nat
  total_released : Nat
  admin : Addr
  schedule_count : Nat
deriving Repr, DecidableEq

structure TokensReleasedEvent where
  beneficiary : Addr
  amount : Nat
  timestamp : Nat
  total_released : Nat
deriving Repr, DecidableEq

/-- Global state touched by the vesting functions the claims cite. -/
structure VestingState where
  poolAt : Addr → Option VestingPool
  eventsAt : Addr → Bool
  released_events : List TokensReleasedEvent

/-- Public view calculate_vested_amount of afjp_vesting.move: the source
body ignores the beneficiary and returns the literal 0. -/
def calculate_vested_amount (beneficiary : Addr) : Nat :=
  let _ := beneficiary
  0

/-- Public view get_releasable_amount of afjp_vesting.move: the source
body ignores the beneficiary and returns the literal 0. -/
def get_releasable_amount (beneficiary : Addr) : Nat :=
  let _ := beneficiary
  0

/-- Public view has_vesting_schedule of afjp_vesting.move: literal
false in the source. -/
def has_vesting_schedule (beneficiary : Addr) : Bool :=
  let _ := beneficiary
  false

/-- Entry function release_vested_tokens of afjp_vesting.move: borrows
the pool mutably but changes nothing, performs no transfer, can never
abort with a NothingToRelease-style code (no such code exists in the
module), and emits a TokensReleasedEvent with amount 0. -/
def release_vested_tokens (s : VestingState) (beneficiary : Addr) (now : Nat) :
    Except Nat VestingState :=
  match s.poolAt afjpAddr with
  | none => .error E_MISSING_RESOURCE
  | some _pool =>
    if ¬ s.eventsAt afjpAddr then .error E_MISSING_RESOURCE
    else
      .ok { s with released_events := s.released_events ++
        [{ beneficiary := beneficiary, amount := 0, timestamp := now,
           total_released := 0 }] }

end AfjpVesting

/-! Concrete states used to evaluate the modelled operations. -/

/-- An AFJP token state with the deployment at the module address: the
capability, info and event resources exist at afjpAddr, the stored admin
is afjpAddr, and no coins have been minted yet. -/
def mintDemoState : AfjpToken.AfjpState where
  capsAt := fun a => a == afjpAddr
  infoAt := fun a =>
    if a = afjpAddr then
      some { total_supply := 0, burned_amount := 0, admin := afjpAddr }
    else none
  eventsAt := fun a => a == afjpAddr
  balances := fun _ => 0
  mint_events := []
  burn_events := []
  transfer_events := []

/-- An AFJP token state where the ledger was never initialized (no
resource exists anywhere) but address 1 already holds 500 coins. -/
def bareLedgerState : AfjpToken.AfjpState where
  capsAt := fun _ => false
  infoAt := fun _ => none
  eventsAt := fun _ => false
  balances := fun a => if a == 1 then 500 else 0
  mint_events := []
  burn_events := []
  transfer_events := []

/-- An empty AFJP token state (no resources, no balances), used as the
ledger component of staking fixtures that do not touch it. -/
def zeroAfjp : AfjpToken.AfjpState where
  capsAt := fun _ => false
  infoAt := fun _ => none
  eventsAt := fun _ => false
  balances := fun _ => 0
  mint_events := []
  burn_events := []
  transfer_events := []

/-- Staking pool used to evaluate the accumulator update step: 2000
staked (two stakers of 1000), rate 100, accumulator and clock at 0. -/
def poolTwoK : AfjpStaking.StakingPool where
  total_staked := 2000
  total_rewards_distributed := 0
  reward_rate_per_second := 100
  last_update_time := 0
  accumulated_reward_per_token := 0
  admin := afjpAddr
  is_active := true
  total_stakers := 2

/-- Staking state holding poolTwoK at the module address. -/
def updDemoState : AfjpStaking.StakingState where
  poolAt := fun a => if a = afjpAddr then some poolTwoK else none
  stakerAt := fun _ => none
  eventsAt := fun a => a == afjpAddr
  afjp := zeroAfjp
  stake_events := []
  unstake_events := []
  claim_events := []

/-- Fresh active staking pool: nothing staked yet, rate 100. -/
def freshPool : AfjpStaking.StakingPool where
  total_staked := 0
  total_rewards_distributed := 0
  reward_rate_per_second := 100
  last_update_time := 0
  accumulated_reward_per_token := 0
  admin := afjpAddr
  is_active := true
  total_stakers := 0

/-- AFJP ledger where addresses 1 and 2 hold 1000 coins each (the
staking module touches only the balances of this component). -/
def afjpTwoHolders : AfjpToken.AfjpState where
  capsAt := fun _ => false
  infoAt := fun _ => none
  eventsAt := fun _ => false
  balances := fun a => if a == 1 then 1000 else if a == 2 then 1000 else 0
  mint_events := []
  burn_events := []
  transfer_events := []

/-- Scenario B start state: fresh pool, stakers A = address 1 and
B = address 2 each hold 1000 AFJP, nobody staked yet. -/
def scenarioB0 : AfjpStaking.StakingState where
  poolAt := fun a => if a = afjpAddr then some freshPool else none
  stakerAt := fun _ => none
  eventsAt := fun a => a == afjpAddr
  afjp := afjpTwoHolders
  stake_events := []
  unstake_events := []
  claim_events := []

/-- Round-trip start state: fresh pool and a single holder (address 1)
with 1000 AFJP. -/
def roundTripState : AfjpStaking.StakingState where
  poolAt := fun a => if a = afjpAddr then some freshPool else none
  stakerAt := fun _ => none
  eventsAt := fun a => a == afjpAddr
  afjp := AfjpToken.AfjpState.mk (fun _ => false) (fun _ => none)
    (fun _ => false) (fun a => if a == 1 then 1000 else 0) [] [] []
  stake_events := []
  unstake_events := []
  claim_events := []

/-- Pool with one staker of 1000 already in, rate 100, clock at 0. -/
def pendingPool : AfjpStaking.StakingPool where
  total_staked := 1000
  total_rewards_distributed := 0
  reward_rate_per_second := 100
  last_update_time := 0
  accumulated_reward_per_token := 0
  admin := afjpAddr
  is_active := true
  total_stakers := 1

/-- State where address 1 has 1000 staked since time 0 with nothing
paid out yet, and still holds 1000 liquid AFJP. -/
def pendingState : AfjpStaking.StakingState where
  poolAt := fun a => if a = afjpAddr then some pendingPool else none
  stakerAt := fun a =>
    if a = 1 then
      some { staked_amount := 1000, reward_debt := 0, last_stake_time := 0,
             total_rewards_claimed := 0, user_reward_per_token_paid := 0 }
    else none
  eventsAt := fun a => a == afjpAddr
  afjp := AfjpToken.AfjpState.mk (fun _ => false) (fun _ => none)
    (fun _ => false) (fun a => if a == 1 then 1000 else 0) [] [] []
  stake_events := []
  unstake_events := []
  claim_events := []

/-- Pool for the reward-query witness: one staker of 1000, rate 200. -/
def queryPool : AfjpStaking.StakingPool where
  total_staked := 1000
  total_rewards_distributed := 0
  reward_rate_per_second := 200
  last_update_time := 0
  accumulated_reward_per_token := 0
  admin := afjpAddr
  is_active := true
  total_stakers := 1

/-- State for the reward-query witness: address 1 staked 1000 at time 0
into queryPool. -/
def queryState : AfjpStaking.StakingState where
  poolAt := fun a => if a = afjpAddr then some queryPool else none
  stakerAt := fun a =>
    if a = 1 then
      some { staked_amount := 1000, reward_debt := 0, last_stake_time := 0,
             total_rewards_claimed := 0, user_reward_per_token_paid := 0 }
    else none
  eventsAt := fun a => a == afjpAddr
  afjp := zeroAfjp
  stake_events := []
  unstake_events := []
  claim_events := []

/-- The state claim_rewards_internal produces on queryState at time 100
(used by the reward-query witness). -/
def queryStateAfter : AfjpStaking.StakingState :=
  match AfjpStaking.claim_rewards_internal queryState 1 100 with
  | .ok p => p.1
  | .error _ => queryState

/-- Pool for the add_rewards evaluation: 1000000 staked, rate 100,
clock and accumulator at 0. -/
def budgetPool : AfjpStaking.StakingPool where
  total_staked := 1000000
  total_rewards_distributed := 0
  reward_rate_per_second := 100
  last_update_time := 0
  accumulated_reward_per_token := 0
  admin := afjpAddr
  is_active := true
  total_stakers := 1

/-- Staking state holding budgetPool at the module address. -/
def budgetState : AfjpStaking.StakingState where
  poolAt := fun a => if a = afjpAddr then some budgetPool else none
  stakerAt := fun _ => none
  eventsAt := fun a => a == afjpAddr
  afjp := zeroAfjp
  stake_events := []
  unstake_events := []
  claim_events := []

/-- Juventud token info at deployment defaults (exchange rate 10). -/
def convertJuvInfo : JuventudToken.JuvTokenInfo where
  total_supply := 0
  total_burned := 0
  total_afjp_burned := 0
  admin := afjpAddr
  exchange_rate := 10

/-- AFJP token info with 1000 minted and nothing burned yet. -/
def convertAfjpInfo : AfjpToken.TokenInfo where
  total_supply := 1000
  burned_amount := 0
  admin := afjpAddr

/-- Combined world for the conversion scenario: both tokens deployed at
the module address, exchange rate 10, and holder address 1 with 100
AFJP and no Juventud. -/
def convertWorld : JuventudToken.World where
  afjp :=
    { capsAt := fun a => a == afjpAddr,
      infoAt := fun a => if a = afjpAddr then some convertAfjpInfo else none,
      eventsAt := fun a => a == afjpAddr,
      balances := fun a => if a == 1 then 100 else 0,
      mint_events := [], burn_events := [], transfer_events := [] }
  juv :=
    { capsAt := fun a => a == afjpAddr,
      infoAt := fun a => if a = afjpAddr then some convertJuvInfo else none,
      discountAt := fun _ => none,
      userAt := fun _ => none,
      eventsAt := fun a => a == afjpAddr,
      balances := fun _ => 0,
      burn_afjp_events := [], discount_events := [] }

/-- World for the supply-invariant run: like convertWorld but with the
DiscountSystem resource present (base rate 1000 bp, per-transaction cap
500000) so that apply_rental_discount can run. -/
def invariantWorld : JuventudToken.World where
  afjp :=
    { capsAt := fun a => a == afjpAddr,
      infoAt := fun a => if a = afjpAddr then some convertAfjpInfo else none,
      eventsAt := fun a => a == afjpAddr,
      balances := fun a => if a == 1 then 100 else 0,
      mint_events := [], burn_events := [], transfer_events := [] }
  juv :=
    { capsAt := fun a => a == afjpAddr,
      infoAt := fun a => if a = afjpAddr then some convertJuvInfo else none,
      discountAt := fun a =>
        if a = afjpAddr then
          some { base_discount_rate := 1000,
                 max_discount_per_transaction := 500000,
                 total_discounts_applied := 0 }
        else none,
      userAt := fun _ => none,
      eventsAt := fun a => a == afjpAddr,
      balances := fun _ => 0,
      burn_afjp_events := [], discount_events := [] }

/-- Vesting pool after one schedule of 5000 was created. -/
def vestingPoolDemo : AfjpVesting.VestingPool where
  total_vested := 5000
  total_released := 0
  admin := afjpAddr
  schedule_count := 1

/-- Vesting state holding vestingPoolDemo at the module address. -/
def vestingStateDemo : AfjpVesting.VestingState where
  poolAt := fun a => if a = afjpAddr then some vestingPoolDemo else none
  eventsAt := fun a => a == afjpAddr
  released_events := []

/-! Theorems for the claims about the primary-token ledger. -/

/-- Claim C8, counterexample: on an initialized deployment (admin is
afjpAddr = 0) a non-admin caller (address 1) invoking mint aborts with
E_NOT_INITIALIZED (3), not with the unauthorized code E_NOT_ADMIN (1):
the source resolves every resource at the address of the calling signer,
so the capability-existence check fires before the stored-admin check
can ever run.  The error result leaves the state untouched by
construction of the transaction semantics. -/
theorem mint_by_non_admin_fails_with_not_initialized_code :
    AfjpToken.mint mintDemoState 1 2 10 0 =
      Except.error AfjpToken.E_NOT_INITIALIZED ∧
    AfjpToken.E_NOT_INITIALIZED ≠ AfjpToken.E_NOT_ADMIN := by
  constructor
  · rfl
  · decide

/-- Claim C8, amended: a caller at whose address no TokenCapabilities
resource exists (which is every non-admin account, since only the
module account can ever create one) has mint fail with the typed abort
E_NOT_INITIALIZED; the operation aborts before any mutation, so every
supply counter and balance is unchanged (an error result carries no new
state). -/
theorem mint_without_capabilities_fails_not_initialized
    (s : AfjpToken.AfjpState) (caller recipient : Addr) (amount now : Nat)
    (h : s.capsAt caller = false) :
    AfjpToken.mint s caller recipient amount now =
      Except.error AfjpToken.E_NOT_INITIALIZED := by
  unfold AfjpToken.mint
  simp [h]

/-- Witness for the amended C8 theorem at a concrete non-admin caller. -/
theorem mint_without_capabilities_fails_not_initialized_witness :
    mintDemoState.capsAt 1 = false ∧
    AfjpToken.mint mintDemoState 1 2 10 0 =
      Except.error AfjpToken.E_NOT_INITIALIZED :=
  ⟨rfl, mint_without_capabilities_fails_not_initialized mintDemoState 1 2 10 0 rfl⟩

/-- Claim C10: the primary-token transfer never checks initialization.
Whatever the state, it never aborts with E_NOT_INITIALIZED; and whenever
the amount is positive and covered by the sender balance it succeeds,
moving the coins and appending a TransferEvent exactly when the
TokenEvents resource exists at the admin address. -/
theorem transfer_works_without_ledger_init
    (s : AfjpToken.AfjpState) (caller recv : Addr) (amount now : Nat) :
    AfjpToken.transfer s caller recv amount now ≠
      Except.error AfjpToken.E_NOT_INITIALIZED ∧
    (amount > 0 → s.balances caller ≥ amount →
      ∃ s', AfjpToken.transfer s caller recv amount now = Except.ok s' ∧
        (recv ≠ caller → s'.balances caller = s.balances caller - amount ∧
          s'.balances recv = s.balances recv + amount) ∧
        (recv = caller → s'.balances = s.balances) ∧
        s'.transfer_events = s.transfer_events ++
          (if s.eventsAt afjpAddr then
            [{ amount := amount, from_addr := caller, to_addr := recv,
               timestamp := now }]
           else []) ∧
        s'.capsAt = s.capsAt ∧ s'.infoAt = s.infoAt) := by
  constructor
  · unfold AfjpToken.transfer
    split
    · simp [AfjpToken.E_INVALID_AMOUNT, AfjpToken.E_NOT_INITIALIZED]
    · split
      · simp [AfjpToken.E_INSUFFICIENT_BALANCE, AfjpToken.E_NOT_INITIALIZED]
      · split <;> simp
  · intro hpos hbal
    unfold AfjpToken.transfer
    have h1 : ¬ ¬ amount > 0 := not_not_intro hpos
    have h2 : ¬ s.balances caller < amount := not_lt.2 hbal
    simp only [if_neg h1, if_neg h2]
    by_cases hev : s.eventsAt afjpAddr
    · simp only [if_pos hev]
      refine ⟨_, rfl, ?_, ?_, by simp [hev], rfl, rfl⟩
      · intro hne
        constructor
        · show Function.update _ recv _ caller = _
          rw [Function.update_noteq (Ne.symm hne), Function.update_same]
        · show Function.update _ recv _ recv = _
          rw [Function.update_same, Function.update_noteq hne]
      · intro heq
        subst heq
        funext a
        by_cases ha : a = recv
        · subst ha
          show Function.update _ a _ a = _
          rw [Function.update_same, Function.update_same,
            Nat.sub_add_cancel hbal]
        · show Function.update _ recv _ a = _
          rw [Function.update_noteq ha, Function.update_noteq ha]
    · simp only [if_neg hev]
      refine ⟨_, rfl, ?_, ?_, by simp [hev], rfl, rfl⟩
      · intro hne
        constructor
        · show Function.update _ recv _ caller = _
          rw [Function.update_noteq (Ne.symm hne), Function.update_same]
        · show Function.update _ recv _ recv = _
          rw [Function.update_same, Function.update_noteq hne]
      · intro heq
        subst heq
        funext a
        by_cases ha : a = recv
        · subst ha
          show Function.update _ a _ a = _
          rw [Function.update_same, Function.update_same,
            Nat.sub_add_cancel hbal]
        · show Function.update _ recv _ a = _
          rw [Function.update_noteq ha, Function.update_noteq ha]

/-- Witness for the C10 theorem: on the never-initialized ledger state,
a transfer of 100 coins from address 1 to address 2 succeeds (and, per
the theorem, appends no event since no event store exists). -/
theorem transfer_works_without_ledger_init_witness :
    AfjpToken.transfer bareLedgerState 1 2 100 7 ≠
      Except.error AfjpToken.E_NOT_INITIALIZED ∧
    (∃ s', AfjpToken.transfer bareLedgerState 1 2 100 7 = Except.ok s' ∧
      ((2 : Addr) ≠ 1 → s'.balances 1 = bareLedgerState.balances 1 - 100 ∧
        s'.balances 2 = bareLedgerState.balances 2 + 100) ∧
      ((2 : Addr) = 1 → s'.balances = bareLedgerState.balances) ∧
      s'.transfer_events = bareLedgerState.transfer_events ++
        (if bareLedgerState.eventsAt afjpAddr then
          [{ amount := 100, from_addr := 1, to_addr := 2, timestamp := 7 }]
         else []) ∧
      s'.capsAt = bareLedgerState.capsAt ∧ s'.infoAt = bareLedgerState.infoAt) :=
  ⟨(transfer_works_without_ledger_init bareLedgerState 1 2 100 7).1,
   (transfer_works_without_ledger_init bareLedgerState 1 2 100 7).2
     (by decide) (by decide)⟩

/-! Theorems for the claims about the staking accrual engine. -/

/-- Claim C1: the update step of the source adds
dt * reward_rate_per_second to the accumulator without dividing by
total_staked.  Evaluated on a pool with total_staked = 2000, rate 100,
over dt = 50: the source yields 5000, the claimed pro-rata increment
dt * rate * P / total_staked would be 2500000.  Consequently, in
scenario B (A stakes 1000 at t = 0, B stakes 1000 at t = 50), at
t = 100 the source attributes 10 reward units to A and 5 to B: both
stakers are credited the full per-token rate for their staking period
regardless of pool share, instead of splitting the emission. -/
theorem update_pool_rewards_omits_pro_rata_division :
    ((AfjpStaking.update_pool_rewards updDemoState 50).poolAt afjpAddr).map
      (fun p => p.accumulated_reward_per_token) = some 5000 ∧
    50 * 100 * AfjpStaking.REWARD_PRECISION / 2000 = 2500000 ∧
    (5000 : Nat) ≠ 2500000 ∧
    ((AfjpStaking.stake_tokens scenarioB0 1 1000 0).bind
        (fun s => AfjpStaking.stake_tokens s 2 1000 50)).toOption.map
      (fun s => (AfjpStaking.calculate_rewards s 1 100,
                 AfjpStaking.calculate_rewards s 2 100)) = some (10, 5) := by
  refine ⟨by decide, by decide, by decide, by decide⟩

/-- Claim C3: stake(1000) followed by unstake(1000) at the same
timestamp leaves calculate_rewards at 0 (that half of the claim holds)
but the holder balance ends at 0, not at the pre-stake 1000: the source
unstake transfers no principal back.  Furthermore a staker with a
pending reward of 5 at t = 50 who stakes again at t = 50 ends with
calculate_rewards = 0, total_rewards_claimed = 0 and no balance credit:
the pending reward is discarded by the checkpoint overwrite instead of
being settled. -/
theorem stake_unstake_roundtrip_loses_principal_and_pending :
    ((AfjpStaking.stake_tokens roundTripState 1 1000 5).bind
        (fun s => AfjpStaking.unstake_tokens s 1 1000 5)).toOption.map
      (fun s => (AfjpStaking.calculate_rewards s 1 5,
                 AfjpToken.get_balance s.afjp 1)) = some (0, 0) ∧
    (0 : Nat) ≠ 1000 ∧
    AfjpStaking.calculate_rewards pendingState 1 50 = 5 ∧
    (AfjpStaking.stake_tokens pendingState 1 100 50).toOption.map
      (fun s => (AfjpStaking.calculate_rewards s 1 50,
                 (s.stakerAt 1).map (fun si => si.total_rewards_claimed),
                 AfjpToken.get_balance s.afjp 1)) = some (0, some 0, 900) ∧
    (5 : Nat) ≠ 0 := by
  refine ⟨by decide, by decide, by decide, by decide, by decide⟩

/-- Claim C4: claim_rewards on a staker with pending reward 10 records
the 10 in total_rewards_claimed and total_rewards_distributed and
advances the checkpoint, but the holder token balance stays 1000
instead of increasing to 1000 + 10: the source never mints or transfers
the reward. -/
theorem claim_rewards_records_but_never_pays :
    (AfjpStaking.claim_rewards_internal pendingState 1 100).toOption.map
      (fun p => (p.2,
        (p.1.stakerAt 1).map (fun si =>
          (si.total_rewards_claimed, si.user_reward_per_token_paid)),
        (p.1.poolAt afjpAddr).map (fun pool => pool.total_rewards_distributed),
        AfjpToken.get_balance p.1.afjp 1)) =
      some (10, some (10, 10000), some 10, 1000) ∧
    (1000 : Nat) ≠ 1000 + 10 := by
  refine ⟨by decide, by decide⟩

/-- Claim C7: calculate_rewards is a consistent pure query.  It is a
pure function of the state by construction (its type returns only the
reward, so two consecutive calls on the same state and clock trivially
agree); the first conjunct shows the projection it performs agrees with
actually running the update step, and the second that the reward
claim_rewards_internal records when it succeeds is exactly the value
calculate_rewards returned at that same instant. -/
theorem calculate_rewards_is_consistent_query :
    (∀ (s : AfjpStaking.StakingState) (user : Addr) (now : Nat),
      AfjpStaking.calculate_rewards (AfjpStaking.update_pool_rewards s now)
        user now = AfjpStaking.calculate_rewards s user now) ∧
    (∀ (s : AfjpStaking.StakingState) (user : Addr) (now : Nat)
        (s' : AfjpStaking.StakingState) (r : Nat),
      AfjpStaking.claim_rewards_internal s user now = Except.ok (s', r) →
      r = AfjpStaking.calculate_rewards s user now) := by
  have key : ∀ (s : AfjpStaking.StakingState) (user : Addr) (now : Nat),
      AfjpStaking.calculate_rewards (AfjpStaking.update_pool_rewards s now)
        user now = AfjpStaking.calculate_rewards s user now := by
    intro s user now
    unfold AfjpStaking.update_pool_rewards AfjpStaking.calculate_rewards
    cases hp : s.poolAt afjpAddr with
    | none => simp [hp]
    | some pool =>
      cases hs : s.stakerAt user with
      | none => simp [hs]
      | some si =>
        by_cases hc : pool.total_staked > 0 ∧ now > pool.last_update_time
        · simp [hs, hp, hc, Function.update_same, lt_irrefl]
        · simp [hs, hp, hc, Function.update_same, lt_irrefl]
  refine ⟨key, ?_⟩
  intro s user now s' r h
  unfold AfjpStaking.claim_rewards_internal at h
  split at h
  · simp at h
  · dsimp only at h
    split at h
    · simp at h
    · split at h
      · simp at h
      · split at h
        · simp at h
        · split at h
          · simp at h
          · simp only [Except.ok.injEq, Prod.mk.injEq] at h
            rw [← h.2]
            exact key s user now

/-- Witness for the C7 theorem on a concrete state: the query agrees
with the update projection, and the concrete claim that succeeds with
reward 20 pays exactly calculate_rewards of the pre-claim state. -/
theorem calculate_rewards_is_consistent_query_witness :
    AfjpStaking.calculate_rewards (AfjpStaking.update_pool_rewards queryState
      100) 1 100 = AfjpStaking.calculate_rewards queryState 1 100 ∧
    (20 : Nat) = AfjpStaking.calculate_rewards queryState 1 100 :=
  ⟨calculate_rewards_is_consistent_query.1 queryState 1 100,
   calculate_rewards_is_consistent_query.2 queryState 1 100
     queryStateAfter 20 rfl⟩

/-- Claim C9, counterexample: on a pool with 1000000 staked, rate 100
and last_update_time 0, add_rewards leaves the accumulator at 0 and
last_update_time at 0 — the claimed "run the update step first" would
have booked the elapsed interval (at time 50: accumulator 5000,
last_update_time 50, as the second conjunct shows the update step
produces).  The evaluation also shows the resulting rate is clamped to
0, since the max-rate constant truncates to 0 in integer division. -/
theorem add_rewards_skips_update_step :
    (AfjpStaking.add_rewards budgetState afjpAddr 31536000000).toOption.map
      (fun s => (s.poolAt afjpAddr).map
        (fun p => (p.accumulated_reward_per_token, p.last_update_time,
                   p.reward_rate_per_second))) = some (some (0, 0, 0)) ∧
    ((AfjpStaking.update_pool_rewards budgetState 50).poolAt afjpAddr).map
      (fun p => (p.accumulated_reward_per_token, p.last_update_time)) =
      some (5000, 50) ∧
    ((0 : Nat), (0 : Nat)) ≠ ((5000 : Nat), (50 : Nat)) := by
  refine ⟨by decide, by decide, by decide⟩

/-- Claim C9, amended: add_rewards is gated on the pool existing at the
caller address with the caller as stored admin; with a non-empty stake
it increases reward_rate_per_second by
extra * P / (total_staked * SECONDS_PER_YEAR), clamped at
MAX_APY * P / (10000 * SECONDS_PER_YEAR), and changes nothing else: in
particular it does not run the update step, so the accumulator and
last_update_time keep their old values and the interval since
last_update_time will later accrue at the new rate. -/
theorem add_rewards_amended_behavior
    (s : AfjpStaking.StakingState) (caller : Addr)
    (pool : AfjpStaking.StakingPool) (extra : Nat)
    (hp : s.poolAt caller = some pool) (ha : pool.admin = caller)
    (ht : pool.total_staked > 0) :
    ∃ pool1, AfjpStaking.add_rewards s caller extra =
        Except.ok { s with
          poolAt := Function.update s.poolAt caller (some pool1) } ∧
      pool1.accumulated_reward_per_token = pool.accumulated_reward_per_token ∧
      pool1.last_update_time = pool.last_update_time ∧
      pool1.total_staked = pool.total_staked ∧
      pool1.reward_rate_per_second =
        min (pool.reward_rate_per_second +
            extra * AfjpStaking.REWARD_PRECISION /
              (pool.total_staked * AfjpStaking.SECONDS_PER_YEAR))
          (AfjpStaking.MAX_APY * AfjpStaking.REWARD_PRECISION /
            (10000 * AfjpStaking.SECONDS_PER_YEAR)) := by
  unfold AfjpStaking.add_rewards
  rw [hp]
  simp only [ha, not_true_eq_false, if_false, if_pos ht]
  refine ⟨_, rfl, rfl, rfl, rfl, ?_⟩
  by_cases hgt : pool.reward_rate_per_second +
      extra * AfjpStaking.REWARD_PRECISION /
        (pool.total_staked * AfjpStaking.SECONDS_PER_YEAR) >
      AfjpStaking.MAX_APY * AfjpStaking.REWARD_PRECISION /
        (10000 * AfjpStaking.SECONDS_PER_YEAR)
  · rw [if_pos hgt]
    exact (min_eq_right (le_of_lt hgt)).symm
  · rw [if_neg hgt]
    exact (min_eq_left (not_lt.1 hgt)).symm

/-- Witness for the amended C9 theorem on the concrete pool with
1000000 staked: the clamp applies (raised rate 1100 exceeds the
truncated max rate 0). -/
theorem add_rewards_amended_behavior_witness :
    ∃ pool1, AfjpStaking.add_rewards budgetState afjpAddr 31536000000 =
        Except.ok { budgetState with
          poolAt := Function.update budgetState.poolAt afjpAddr (some pool1) } ∧
      pool1.accumulated_reward_per_token =
        budgetPool.accumulated_reward_per_token ∧
      pool1.last_update_time = budgetPool.last_update_time ∧
      pool1.total_staked = budgetPool.total_staked ∧
      pool1.reward_rate_per_second =
        min (budgetPool.reward_rate_per_second +
            31536000000 * AfjpStaking.REWARD_PRECISION /
              (budgetPool.total_staked * AfjpStaking.SECONDS_PER_YEAR))
          (AfjpStaking.MAX_APY * AfjpStaking.REWARD_PRECISION /
            (10000 * AfjpStaking.SECONDS_PER_YEAR)) :=
  add_rewards_amended_behavior budgetState afjpAddr budgetPool 31536000000
    rfl rfl (by decide)

/-! Theorems for the claims about the exchange and vesting engines. -/

/-- Claim C2: the supply invariant fails for the Juventud token.
Starting from a fresh deployment where only address 1 ever holds
Juventud (every balance starts at 0 and the two operations credit and
debit only address 1), burning 100 AFJP mints 1000 Juventud, and a
rental discount of 100 then withdraws and burns 100 Juventud coins —
but total_burned stays 0 because apply_rental_discount never updates
it.  The holder balances sum to 900 while
total_minted - total_burned = 1000. -/
theorem rental_discount_burn_breaks_supply_invariant :
    ((JuventudToken.burn_afjp_for_juventud invariantWorld 1 100 0).bind
        (fun w => JuventudToken.apply_rental_discount w 1 1000 10 1)).toOption.map
      (fun w => ((w.juv.infoAt afjpAddr).map
          (fun ti => (ti.total_supply, ti.total_burned)),
        w.juv.balances 1, w.juv.balances 0, w.juv.balances 2)) =
      some (some (1000, 0), 900, 0, 0) ∧
    (900 : Nat) + 0 + 0 ≠ 1000 - 0 := by
  refine ⟨by decide, by decide⟩

/-- Claim C6: the burn-to-mint conversion.  Below the minimum it fails
with InvalidAmount; at or above the minimum, with sufficient AFJP
balance and both deployments present, it succeeds in one step whose
result simultaneously shows the AFJP balance debited by the amount, the
AFJP burned counter credited, floor(amount * rate) Juventud credited to
the holder (Nat multiplication is exact, so the floor is the product),
and the Juventud supply and conversion counters advanced. -/
theorem convert_burns_and_mints_atomically :
    (∀ (w : JuventudToken.World) (user : Addr) (amount now : Nat),
      amount < JuventudToken.MIN_BURN_AMOUNT →
      JuventudToken.burn_afjp_for_juventud w user amount now =
        Except.error JuventudToken.E_INVALID_AMOUNT) ∧
    (∀ (w : JuventudToken.World) (user : Addr) (amount now : Nat)
        (jti : JuventudToken.JuvTokenInfo) (ati : AfjpToken.TokenInfo),
      amount ≥ JuventudToken.MIN_BURN_AMOUNT →
      w.afjp.balances user ≥ amount →
      w.juv.capsAt afjpAddr = true →
      w.juv.infoAt afjpAddr = some jti →
      w.juv.eventsAt afjpAddr = true →
      w.afjp.capsAt afjpAddr = true →
      w.afjp.infoAt afjpAddr = some ati →
      w.afjp.eventsAt afjpAddr = true →
      ∃ w', JuventudToken.burn_afjp_for_juventud w user amount now =
          Except.ok w' ∧
        w'.afjp.balances user = w.afjp.balances user - amount ∧
        w'.afjp.infoAt afjpAddr =
          some { ati with burned_amount := ati.burned_amount + amount } ∧
        w'.juv.balances user =
          w.juv.balances user + amount * jti.exchange_rate ∧
        w'.juv.infoAt afjpAddr = some { jti with
          total_supply := jti.total_supply + amount * jti.exchange_rate,
          total_afjp_burned := jti.total_afjp_burned + amount }) := by
  constructor
  · intro w user amount now hlt
    unfold JuventudToken.burn_afjp_for_juventud
    rw [if_pos hlt]
  · intro w user amount now jti ati hmin hbal hjc hji hje hac hai hae
    have hpos : amount > 0 :=
      lt_of_lt_of_le (by decide : (0 : Nat) < 100) hmin
    have h1 : ¬ amount < JuventudToken.MIN_BURN_AMOUNT := not_lt.2 hmin
    have h2 : ¬ w.afjp.balances user < amount := not_lt.2 hbal
    unfold JuventudToken.burn_afjp_for_juventud AfjpToken.burn
      AfjpToken.get_balance
    simp only [h1, h2, hjc, hji, hje, hac, hai, hae, hpos, not_true_eq_false,
      not_false_eq_true, not_lt, if_false, if_true, ite_false, ite_true,
      not_not, not_le]
    refine ⟨_, rfl, ?_, ?_, ?_, ?_⟩
    · simp [Function.update_same]
    · simp [Function.update_same]
    · simp [Function.update_same]
    · simp [Function.update_same]

/-- Witness for the C6 theorem, scenario D: with exchange rate 10, a
conversion of 50 fails below the minimum of 100, and a conversion of
100 succeeds, minting exactly 1000 Juventud, debiting 100 AFJP and
advancing the counters. -/
theorem convert_burns_and_mints_atomically_witness :
    JuventudToken.burn_afjp_for_juventud convertWorld 1 50 0 =
      Except.error JuventudToken.E_INVALID_AMOUNT ∧
    (∃ w', JuventudToken.burn_afjp_for_juventud convertWorld 1 100 0 =
        Except.ok w' ∧
      w'.afjp.balances 1 = convertWorld.afjp.balances 1 - 100 ∧
      w'.afjp.infoAt afjpAddr = some { convertAfjpInfo with
        burned_amount := convertAfjpInfo.burned_amount + 100 } ∧
      w'.juv.balances 1 =
        convertWorld.juv.balances 1 + 100 * convertJuvInfo.exchange_rate ∧
      w'.juv.infoAt afjpAddr = some { convertJuvInfo with
        total_supply :=
          convertJuvInfo.total_supply + 100 * convertJuvInfo.exchange_rate,
        total_afjp_burned := convertJuvInfo.total_afjp_burned + 100 }) :=
  ⟨convert_burns_and_mints_atomically.1 convertWorld 1 50 0 (by decide),
   convert_burns_and_mints_atomically.2 convertWorld 1 100 0
     convertJuvInfo convertAfjpInfo (by decide) (by decide) rfl rfl rfl rfl
     rfl rfl⟩

/-- Claim C5: the vesting computation of the source is a stub.
calculate_vested_amount and get_releasable_amount return 0 for every
beneficiary (never the cliff/linear formula), has_vesting_schedule is
always false, and at t = end (the full five-year duration) a release
call succeeds releasing nothing: the pool is unchanged and the emitted
event carries amount 0 — the source cannot fail with a
NothingToRelease-style error because no such code exists in it. -/
theorem vesting_release_and_vested_amount_are_stubbed :
    (∀ b : Addr, AfjpVesting.calculate_vested_amount b = 0) ∧
    (∀ b : Addr, AfjpVesting.get_releasable_amount b = 0) ∧
    (∀ b : Addr, AfjpVesting.has_vesting_schedule b = false) ∧
    (AfjpVesting.release_vested_tokens vestingStateDemo 9
        AfjpVesting.VESTING_DURATION_SECONDS).toOption.map
      (fun s => (s.poolAt afjpAddr,
        s.released_events.map (fun e => (e.amount, e.total_released)))) =
      some (some vestingPoolDemo, [(0, 0)]) := by
  refine ⟨fun b => rfl, fun b => rfl, fun b => rfl, by decide⟩
